import Mathlib

/-!
# Verification of the MAVLink system-id telemetry forwarder

Shallow embedding of `scripts/telemetry_forwarder.py`.

The Python object `SystemIdTelemetryForwarder` holds the mutable fields
`running`, `thread`, `start_time`, the four packet/byte counters and
`system_ids_seen`.  The loop `_forward_loop` additionally keeps the local
variables `consecutive_timeouts` and `last_stats_time`.  We collect all of
them in a single state record `Fwd`; the loop locals are (re)initialised by
`loopInit` when the loop is entered.  Wall-clock readings (`time.time()`)
become integer timestamps (whole seconds; the unit matches the constants
in the code) supplied by the environment: a received frame carries the
time at which the iteration processes it.  Derived statistics are exact
rationals, standing in for Python floats.

One loop iteration consumes one `Event`:
* `timeout`    — `recv_match` returned `None`;
* `recvError`  — `recv_match` raised;
* `frame now sysid bytes sendOk` — a frame was received at wall time `now`
  with source system id `sysid` and raw buffer `bytes`; `sendOk = false`
  means `send_sock.sendto` raised for this frame (relevant only when the
  frame matches the expected system id and is therefore sent).

The body of the `while` loop is wrapped in `try/except`; because Python
mutates `self` in place, the mutations performed before a raise persist.
`loopBody` therefore returns either `ok s` (body ran to completion) or
`raised s` (an exception escaped the body with the partially updated
state `s`); `stepLoop` is the body together with the `except` handler,
which logs the error (`errorsLogged`) and sleeps briefly.

Observable effects are recorded in the state: `sent` is the sequence of
datagrams delivered to the broadcast port, `warnings` counts the
"No data for N seconds" lines, `errorsLogged` the "Forward error" lines
and `statsLogged` the periodic statistics lines.
-/

/-- State of one `SystemIdTelemetryForwarder`, fields as in `__init__`
plus the loop locals of `_forward_loop` and the observation channels. -/
structure Fwd where
  expected_sysid : Nat
  running : Bool
  threadsLaunched : Nat
  start_time : Option ℤ
  packets_received : Nat
  packets_forwarded : Nat
  packets_filtered : Nat
  bytes_forwarded : Nat
  system_ids_seen : Finset Nat
  consecutive_timeouts : Nat
  last_stats_time : ℤ
  sent : List (List Nat)
  warnings : Nat
  errorsLogged : Nat
  statsLogged : Nat
  deriving DecidableEq

/-- A fresh forwarder, as built by `__init__`. -/
def initFwd (expected : Nat) : Fwd :=
  { expected_sysid := expected
    running := false
    threadsLaunched := 0
    start_time := none
    packets_received := 0
    packets_forwarded := 0
    packets_filtered := 0
    bytes_forwarded := 0
    system_ids_seen := ∅
    consecutive_timeouts := 0
    last_stats_time := 0
    sent := []
    warnings := 0
    errorsLogged := 0
    statsLogged := 0 }

/-- One iteration's input, as seen by `_forward_loop`. -/
inductive Event where
  | timeout
  | recvError
  | frame (now : ℤ) (sysid : Nat) (bytes : List Nat) (sendOk : Bool)
  deriving DecidableEq

/-- `recv_match(blocking=True, timeout=1.0)` — the receive timeout in seconds. -/
def receiveTimeout : ℚ := 1

/-- `self.thread.join(timeout=2)` — the shutdown grace period in seconds. -/
def joinGracePeriod : ℚ := 2

/-- `time.sleep(0.1)` in the `except` branch of the loop. -/
def errorPause : ℚ := 1 / 10

/-- `duration = time.time() - self.start_time if self.start_time else 0`,
shared by `_log_stats` and `get_stats`. -/
def elapsed (now : ℤ) (s : Fwd) : ℤ :=
  match s.start_time with
  | some t => now - t
  | none => 0

/-- `_log_stats`: emits one statistics line when the elapsed duration is
positive, otherwise prints nothing. -/
def logStats (now : ℤ) (s : Fwd) : Fwd :=
  if 0 < elapsed now s then { s with statsLogged := s.statsLogged + 1 } else s

/-- Lines 124–128 of the loop: `if current_time - last_stats_time >= 10.0`
then `_log_stats()` and `last_stats_time = current_time`. -/
def statsCheck (now : ℤ) (s : Fwd) : Fwd :=
  if 10 ≤ now - s.last_stats_time then
    { logStats now s with last_stats_time := now }
  else s

/-- Result of one execution of the `try` body: either the body completed,
or an exception escaped it leaving the partially updated state. -/
inductive BodyResult where
  | ok (s : Fwd)
  | raised (s : Fwd)

/-- The `try` body of one iteration of `_forward_loop` (lines 88–128).
Mutations made before a raise persist, as with Python in-place mutation. -/
def loopBody (s : Fwd) (e : Event) : BodyResult :=
  match e with
  | .recvError => .raised s
  | .timeout =>
      let ct := s.consecutive_timeouts + 1
      if 10 ≤ ct then
        .ok { s with warnings := s.warnings + 1, consecutive_timeouts := 0 }
      else
        .ok { s with consecutive_timeouts := ct }
  | .frame now sysid bytes sendOk =>
      let s1 := { s with
        consecutive_timeouts := 0
        packets_received := s.packets_received + 1
        system_ids_seen := insert sysid s.system_ids_seen }
      if sysid = s.expected_sysid then
        if sendOk then
          .ok (statsCheck now { s1 with
            sent := s1.sent ++ [bytes]
            packets_forwarded := s1.packets_forwarded + 1
            bytes_forwarded := s1.bytes_forwarded + bytes.length })
        else
          .raised s1
      else
        .ok (statsCheck now { s1 with packets_filtered := s1.packets_filtered + 1 })

/-- One full loop iteration: the `try` body plus the `except` handler
(log the error, pause briefly, continue). -/
def stepLoop (s : Fwd) (e : Event) : Fwd :=
  match loopBody s e with
  | .ok s1 => s1
  | .raised s1 => { s1 with errorsLogged := s1.errorsLogged + 1 }

/-- Entering `_forward_loop`: the loop locals are initialised
(`consecutive_timeouts = 0`, `last_stats_time = time.time()`). -/
def loopInit (now : ℤ) (s : Fwd) : Fwd :=
  { s with consecutive_timeouts := 0, last_stats_time := now }

/-- Run the loop body over a sequence of events, unconditionally. -/
def runLoop (s : Fwd) : List Event → Fwd
  | [] => s
  | e :: rest => runLoop (stepLoop s e) rest

/-- Run the loop with the `while self.running` guard: the flag is tested
at each iteration boundary and the loop exits as soon as it is false. -/
def runWhile (s : Fwd) : List Event → Fwd
  | [] => s
  | e :: rest => if s.running then runWhile (stepLoop s e) rest else s

/-- `start()` (lines 49–62): no-op while running, otherwise set the flag,
record the start time and launch the loop thread. -/
def start (now : ℤ) (s : Fwd) : Fwd :=
  if s.running then s
  else { s with
    running := true
    start_time := some now
    threadsLaunched := s.threadsLaunched + 1 }

/-- `stop()` (lines 64–69): clear the flag, then join with the grace period. -/
def stop (s : Fwd) : Fwd :=
  { s with running := false }

/-- Wall-clock time for `stop()` to return: `thread.join(timeout=2)`
waits for the loop for at most the grace period. `remaining` is the time
the loop still needs to observe the flag and exit. -/
def stopCompletionTime (remaining : ℚ) : ℚ :=
  min remaining joinGracePeriod

/-- The dictionary returned by `get_stats` (lines 150–164). -/
structure Stats where
  drone_id : Nat
  expected_sysid : Nat
  packets_received : Nat
  packets_forwarded : Nat
  packets_filtered : Nat
  filter_percentage : ℚ
  bytes_forwarded : Nat
  forward_rate_hz : ℚ
  bandwidth_kbps : ℚ
  system_ids_seen : List Nat
  deriving DecidableEq

/-- `get_stats` at wall time `now` (the `drone_id` field is configuration,
passed through unchanged). -/
def get_stats (droneId : Nat) (now : ℤ) (s : Fwd) : Stats :=
  let duration := elapsed now s
  { drone_id := droneId
    expected_sysid := s.expected_sysid
    packets_received := s.packets_received
    packets_forwarded := s.packets_forwarded
    packets_filtered := s.packets_filtered
    filter_percentage :=
      if 0 < s.packets_received then
        (s.packets_filtered : ℚ) / (s.packets_received : ℚ) * 100
      else 0
    bytes_forwarded := s.bytes_forwarded
    forward_rate_hz :=
      if 0 < duration then (s.packets_forwarded : ℚ) / (duration : ℚ) else 0
    bandwidth_kbps :=
      if 0 < duration then ((s.bytes_forwarded : ℚ) * 8 / 1024) / (duration : ℚ) else 0
    system_ids_seen := s.system_ids_seen.sort (· ≤ ·) }

/-- Descriptor of a received frame: arrival wall time, source system id
(`msg.get_srcSystem()`) and raw buffer (`msg.get_msgbuf()`). -/
structure FrameIn where
  time : ℤ
  sysid : Nat
  bytes : List Nat
  deriving DecidableEq

/-- A trace in which every iteration receives a frame and every send
succeeds. -/
def frameEvents (fs : List FrameIn) : List Event :=
  fs.map fun f => .frame f.time f.sysid f.bytes true

/-- Scenario A input: 100 frames interleaving 60 with system id 2 and 40
with system id 0, with varying payloads, arriving one second apart. -/
def scenarioFrames : List FrameIn :=
  (List.range 100).map fun (i : Nat) =>
    if i % 5 < 3 then
      { time := (i : ℤ), sysid := 2, bytes := List.replicate (i % 7 + 1) 1 }
    else
      { time := (i : ℤ), sysid := 0, bytes := [9, 9] }

/-- Number of events in a trace on which `sendto` raised for a frame that
matched the expected system id (the only place a send error can occur). -/
def sendFailCount (expected : Nat) : List Event → Nat
  | [] => 0
  | .frame _ sid _ sendOk :: rest =>
      (if sid = expected ∧ sendOk = false then 1 else 0)
        + sendFailCount expected rest
  | _ :: rest => sendFailCount expected rest

/-- The four statistics counters of a forwarder state. -/
def countersOf (s : Fwd) : Nat × Nat × Nat × Nat :=
  (s.packets_received, s.packets_forwarded, s.packets_filtered,
    s.bytes_forwarded)

/-- Outcome of `forwarder.start()` as invoked by `start_all`: the state
after `start` plus whether the spawned loop thread survived its
`mavlink_connection` call.  A connect failure raises inside the daemon
thread, which dies reporting the exception; `start()` itself has already
returned, so nothing propagates to the caller. -/
structure Spawned where
  fwd : Fwd
  threadAlive : Bool
  deriving DecidableEq

/-- Start one forwarder whose connection attempt will succeed
(`connectOk = true`) or fail inside its thread (`connectOk = false`). -/
def startOne (now : ℤ) (connectOk : Bool) (f : Fwd) : Spawned :=
  { fwd := start now f, threadAlive := connectOk }

/-- `MultiDroneForwarder.start_all` (lines 185–191): start each forwarder
in configuration order, sleeping one second between consecutive starts. -/
def start_all (now : ℤ) : List (Bool × Fwd) → List Spawned
  | [] => []
  | (ok, f) :: rest => startOne now ok f :: start_all (now + 1) rest

/-! ## Basic lemmas about `statsCheck` and `stepLoop` -/

theorem statsCheck_running (now : ℤ) (s : Fwd) :
    (statsCheck now s).running = s.running := by
  unfold statsCheck logStats
  split
  · split <;> rfl
  · rfl

theorem statsCheck_expected (now : ℤ) (s : Fwd) :
    (statsCheck now s).expected_sysid = s.expected_sysid := by
  unfold statsCheck logStats
  split
  · split <;> rfl
  · rfl

theorem statsCheck_received (now : ℤ) (s : Fwd) :
    (statsCheck now s).packets_received = s.packets_received := by
  unfold statsCheck logStats
  split
  · split <;> rfl
  · rfl

theorem statsCheck_forwarded (now : ℤ) (s : Fwd) :
    (statsCheck now s).packets_forwarded = s.packets_forwarded := by
  unfold statsCheck logStats
  split
  · split <;> rfl
  · rfl

theorem statsCheck_filtered (now : ℤ) (s : Fwd) :
    (statsCheck now s).packets_filtered = s.packets_filtered := by
  unfold statsCheck logStats
  split
  · split <;> rfl
  · rfl

theorem statsCheck_bytes (now : ℤ) (s : Fwd) :
    (statsCheck now s).bytes_forwarded = s.bytes_forwarded := by
  unfold statsCheck logStats
  split
  · split <;> rfl
  · rfl

theorem statsCheck_sent (now : ℤ) (s : Fwd) :
    (statsCheck now s).sent = s.sent := by
  unfold statsCheck logStats
  split
  · split <;> rfl
  · rfl

theorem statsCheck_ct (now : ℤ) (s : Fwd) :
    (statsCheck now s).consecutive_timeouts = s.consecutive_timeouts := by
  unfold statsCheck logStats
  split
  · split <;> rfl
  · rfl

theorem stepLoop_running (s : Fwd) (e : Event) :
    (stepLoop s e).running = s.running := by
  cases e with
  | timeout =>
      simp only [stepLoop, loopBody]
      split_ifs <;> rfl
  | recvError => rfl
  | frame now sysid bytes sendOk =>
      simp only [stepLoop, loopBody]
      split_ifs <;> first
        | rfl
        | (show (statsCheck _ _).running = _; rw [statsCheck_running])

theorem stepLoop_expected (s : Fwd) (e : Event) :
    (stepLoop s e).expected_sysid = s.expected_sysid := by
  cases e with
  | timeout =>
      simp only [stepLoop, loopBody]
      split_ifs <;> rfl
  | recvError => rfl
  | frame now sysid bytes sendOk =>
      simp only [stepLoop, loopBody]
      split_ifs <;> first
        | rfl
        | (show (statsCheck _ _).expected_sysid = _; rw [statsCheck_expected])

/-! ## Claim theorems -/

/-- C3: every derived metric returned by `get_stats` is exactly `0` — not a
fault, infinity or NaN — whenever its denominator is zero or non-positive:
`forward_rate_hz` and `bandwidth_kbps` are `0` when the elapsed duration is
non-positive, and `filter_percentage` is `0` when `packets_received = 0`. -/
theorem get_stats_denominator_guards (droneId : Nat) (now : ℤ) (s : Fwd) :
    (elapsed now s ≤ 0 →
      (get_stats droneId now s).forward_rate_hz = 0 ∧
      (get_stats droneId now s).bandwidth_kbps = 0) ∧
    (s.packets_received = 0 →
      (get_stats droneId now s).filter_percentage = 0) := by
  constructor
  · intro h
    have hn : ¬ (0 < elapsed now s) := not_lt.mpr h
    constructor <;> simp [get_stats, hn]
  · intro h
    simp [get_stats, h]

/-- Witness for C3 at a fresh forwarder (no start time, no packets). -/
theorem get_stats_denominator_guards_witness :
    (get_stats 1 0 (initFwd 2)).forward_rate_hz = 0 ∧
    (get_stats 1 0 (initFwd 2)).bandwidth_kbps = 0 ∧
    (get_stats 1 0 (initFwd 2)).filter_percentage = 0 :=
  ⟨((get_stats_denominator_guards 1 0 (initFwd 2)).1 (by decide)).1,
   ((get_stats_denominator_guards 1 0 (initFwd 2)).1 (by decide)).2,
   (get_stats_denominator_guards 1 0 (initFwd 2)).2 (by decide)⟩

/-- C9: `start()` is idempotent — while `running` it changes no field and
launches no new thread; from a non-running state it sets `running`, records
the start time and launches exactly one new loop thread, leaving every
other field (counters included) unchanged. -/
theorem start_idempotent (now : ℤ) (s : Fwd) :
    (s.running = true → start now s = s) ∧
    (s.running = false →
      start now s = { s with
        running := true
        start_time := some now
        threadsLaunched := s.threadsLaunched + 1 }) := by
  constructor <;> intro h <;> simp [start, h]

/-- Witness for C9: a second `start` on an already started forwarder is a
no-op. -/
theorem start_idempotent_witness :
    start 5 (start 3 (initFwd 1)) = start 3 (initFwd 1) :=
  (start_idempotent 5 (start 3 (initFwd 1))).1 (by decide)

/-- C6: an exception raised during receive or send is caught inside the
loop: the iteration logs one error line, `running` is untouched, and the
loop goes on to process the remaining iterations — no event, error events
included, terminates the forwarder or escapes the loop. -/
theorem loop_exceptions_nonfatal (s : Fwd) (h : s.running = true) :
    (∀ (e : Event) (es : List Event),
      runWhile s (e :: es) = runWhile (stepLoop s e) es) ∧
    (stepLoop s .recvError).errorsLogged = s.errorsLogged + 1 ∧
    (stepLoop s .recvError).running = true ∧
    (∀ (now : ℤ) (b : List Nat),
      (stepLoop s (.frame now s.expected_sysid b false)).errorsLogged
          = s.errorsLogged + 1 ∧
      (stepLoop s (.frame now s.expected_sysid b false)).running = true) := by
  refine ⟨fun e es => ?_, ?_, ?_, fun now b => ⟨?_, ?_⟩⟩
  · simp [runWhile, h]
  · rfl
  · rw [stepLoop_running s .recvError, h]
  · simp [stepLoop, loopBody]
  · rw [stepLoop_running, h]

/-- Witness for C6: a receive exception on a started forwarder is logged
and leaves it running. -/
theorem loop_exceptions_nonfatal_witness :
    (stepLoop (start 0 (initFwd 1)) .recvError).errorsLogged
        = (start 0 (initFwd 1)).errorsLogged + 1 ∧
    (stepLoop (start 0 (initFwd 1)) .recvError).running = true :=
  ⟨(loop_exceptions_nonfatal (start 0 (initFwd 1)) (by decide)).2.1,
   (loop_exceptions_nonfatal (start 0 (initFwd 1)) (by decide)).2.2.1⟩

/-- C5: after `stop()` the flag is down, the loop exits at the next
iteration boundary processing nothing further (no counter changes, no
sends), and `stop()` returns within the `join` grace period, which is
below the receive timeout plus grace period bound of 3 seconds. -/
theorem stop_bounded_shutdown (s : Fwd) (remaining : ℚ)
    (hrem : 0 ≤ remaining) :
    (stop s).running = false ∧
    (∀ es : List Event, runWhile (stop s) es = stop s) ∧
    0 ≤ stopCompletionTime remaining ∧
    stopCompletionTime remaining ≤ joinGracePeriod ∧
    receiveTimeout + joinGracePeriod ≤ 3 := by
  refine ⟨rfl, fun es => ?_, ?_, ?_, ?_⟩
  · cases es with
    | nil => rfl
    | cons e rest => simp [runWhile, stop]
  · exact le_min hrem (by norm_num [joinGracePeriod])
  · exact min_le_right _ _
  · norm_num [receiveTimeout, joinGracePeriod]

/-- Witness for C5: stopping a started forwarder with one second of loop
time left completes within the bound, and a frame arriving afterwards is
not processed. -/
theorem stop_bounded_shutdown_witness :
    (stop (start 0 (initFwd 1))).running = false ∧
    runWhile (stop (start 0 (initFwd 1))) [.frame 1 1 [5] true]
        = stop (start 0 (initFwd 1)) ∧
    stopCompletionTime 1 ≤ joinGracePeriod :=
  ⟨(stop_bounded_shutdown (start 0 (initFwd 1)) 1 (by decide)).1,
   (stop_bounded_shutdown (start 0 (initFwd 1)) 1 (by decide)).2.1
      [.frame 1 1 [5] true],
   (stop_bounded_shutdown (start 0 (initFwd 1)) 1 (by decide)).2.2.2.1⟩

/-- C4: the consecutive-timeout counter increments on each timeout, resets
on each received frame, and when an increment reaches 10 the iteration
emits exactly one warning and resets the counter, never touching
`running`; hence 12 consecutive timeouts (12 s of silence at the 1 s
receive timeout) emit exactly one silence warning with the forwarder
running throughout. -/
theorem timeout_counter_behaviour (s : Fwd) :
    (s.consecutive_timeouts + 1 < 10 →
      stepLoop s .timeout
        = { s with consecutive_timeouts := s.consecutive_timeouts + 1 }) ∧
    (10 ≤ s.consecutive_timeouts + 1 →
      stepLoop s .timeout
        = { s with warnings := s.warnings + 1, consecutive_timeouts := 0 }) ∧
    (∀ (now : ℤ) (sid : Nat) (b : List Nat) (ok : Bool),
      (stepLoop s (.frame now sid b ok)).consecutive_timeouts = 0) ∧
    (∀ es : List Event, (runLoop s es).running = s.running) ∧
    (s.consecutive_timeouts = 0 →
      (runLoop s (List.replicate 12 .timeout)).warnings = s.warnings + 1 ∧
      (runLoop s (List.replicate 12 .timeout)).consecutive_timeouts = 2) := by
  refine ⟨fun h => ?_, fun h => ?_, fun now sid b ok => ?_, fun es => ?_,
    fun h => ?_⟩
  · simp [stepLoop, loopBody, Nat.not_le.mpr h]
  · simp [stepLoop, loopBody, h]
  · simp only [stepLoop, loopBody]
    split_ifs <;> first
      | rfl
      | (show (statsCheck _ _).consecutive_timeouts = _; rw [statsCheck_ct])
  · induction es generalizing s with
    | nil => rfl
    | cons e rest ih => rw [runLoop, ih, stepLoop_running]
  · constructor <;>
      simp [runLoop, stepLoop, loopBody, List.replicate, h]

/-- Witness for C4: twelve silent seconds on a freshly started forwarder
produce exactly one warning, leave the loop running and the counter at 2. -/
theorem timeout_counter_behaviour_witness :
    (runLoop (start 0 (initFwd 1)) (List.replicate 12 .timeout)).warnings
        = (start 0 (initFwd 1)).warnings + 1 ∧
    (runLoop (start 0 (initFwd 1)) (List.replicate 12 .timeout)).running
        = (start 0 (initFwd 1)).running :=
  ⟨((timeout_counter_behaviour (start 0 (initFwd 1))).2.2.2.2 (by decide)).1,
   (timeout_counter_behaviour (start 0 (initFwd 1))).2.2.2.1
      (List.replicate 12 .timeout)⟩

theorem sendFailCount_cons (expected : Nat) (e : Event) (es : List Event) :
    sendFailCount expected (e :: es)
      = sendFailCount expected [e] + sendFailCount expected es := by
  cases e <;> simp [sendFailCount]

theorem stepLoop_counter_equation (s : Fwd) (e : Event) :
    (stepLoop s e).packets_received + s.packets_forwarded + s.packets_filtered
      = (stepLoop s e).packets_forwarded + (stepLoop s e).packets_filtered
        + sendFailCount s.expected_sysid [e] + s.packets_received := by
  cases e with
  | timeout =>
      simp only [stepLoop, loopBody]
      split_ifs <;> simp [sendFailCount] <;> omega
  | recvError =>
      simp [stepLoop, loopBody, sendFailCount]
      omega
  | frame now sid b ok =>
      simp only [stepLoop, loopBody]
      split_ifs with h1 h2
      · simp [statsCheck_received, statsCheck_forwarded, statsCheck_filtered,
          sendFailCount, h1, h2]
        omega
      · simp [sendFailCount, h1, h2]
        omega
      · simp [statsCheck_received, statsCheck_forwarded, statsCheck_filtered,
          sendFailCount, h1]
        omega

/-- C1 counterexample: on the iteration that receives a frame matching the
expected system id but whose send raises, `packets_received` is already
incremented while neither `packets_forwarded` nor `packets_filtered` is,
so the counter equation fails on a reachable state. -/
theorem counter_equation_fails_on_send_error :
    (runLoop (start 0 (initFwd 1))
        [.frame 0 1 [7, 7] false]).packets_received = 1 ∧
    (runLoop (start 0 (initFwd 1))
        [.frame 0 1 [7, 7] false]).packets_forwarded = 0 ∧
    (runLoop (start 0 (initFwd 1))
        [.frame 0 1 [7, 7] false]).packets_filtered = 0 ∧
    (runLoop (start 0 (initFwd 1)) [.frame 0 1 [7, 7] false]).packets_received
      ≠ (runLoop (start 0 (initFwd 1)) [.frame 0 1 [7, 7] false]).packets_forwarded
        + (runLoop (start 0 (initFwd 1))
            [.frame 0 1 [7, 7] false]).packets_filtered := by
  decide

/-- C1 amended: on every trace,
`packets_received = packets_forwarded + packets_filtered + k` where `k`
counts the matching frames whose send raised; in particular the counter
equation `packets_received = packets_forwarded + packets_filtered` holds
at all times on every trace in which no send raises. -/
theorem counter_equation_accounts_send_failures (s : Fwd) (es : List Event) :
    ((runLoop s es).packets_received + s.packets_forwarded + s.packets_filtered
      = (runLoop s es).packets_forwarded + (runLoop s es).packets_filtered
        + sendFailCount s.expected_sysid es + s.packets_received) ∧
    (s.packets_received = s.packets_forwarded + s.packets_filtered →
      sendFailCount s.expected_sysid es = 0 →
      (runLoop s es).packets_received
        = (runLoop s es).packets_forwarded + (runLoop s es).packets_filtered) := by
  have main :
      (runLoop s es).packets_received + s.packets_forwarded + s.packets_filtered
        = (runLoop s es).packets_forwarded + (runLoop s es).packets_filtered
          + sendFailCount s.expected_sysid es + s.packets_received := by
    induction es generalizing s with
    | nil =>
        simp [runLoop, sendFailCount]
        omega
    | cons e rest ih =>
        have hstep := stepLoop_counter_equation s e
        have hexp := stepLoop_expected s e
        have hrec := ih (stepLoop s e)
        rw [hexp] at hrec
        rw [runLoop, sendFailCount_cons]
        omega
  exact ⟨main, fun h0 hk => by omega⟩

/-- Witness for C1 amended: a matching frame whose send raises is counted
in the send-failure term, and a clean trace keeps the counter equation. -/
theorem counter_equation_accounts_send_failures_witness :
    ((runLoop (start 0 (initFwd 1))
        [.frame 0 1 [7, 7] false]).packets_received
      = (runLoop (start 0 (initFwd 1)) [.frame 0 1 [7, 7] false]).packets_forwarded
        + (runLoop (start 0 (initFwd 1))
            [.frame 0 1 [7, 7] false]).packets_filtered
        + sendFailCount 1 [.frame 0 1 [7, 7] false]) ∧
    ((runLoop (start 0 (initFwd 1))
        [.frame 0 1 [7, 7] true, .timeout]).packets_received
      = (runLoop (start 0 (initFwd 1))
          [.frame 0 1 [7, 7] true, .timeout]).packets_forwarded
        + (runLoop (start 0 (initFwd 1))
            [.frame 0 1 [7, 7] true, .timeout]).packets_filtered) :=
  ⟨by
    have h := (counter_equation_accounts_send_failures (start 0 (initFwd 1))
      [.frame 0 1 [7, 7] false]).1
    revert h
    decide,
   (counter_equation_accounts_send_failures (start 0 (initFwd 1))
      [.frame 0 1 [7, 7] true, .timeout]).2 (by decide) (by decide)⟩

theorem stepLoop_frame_effect (s : Fwd) (now : ℤ) (sid : Nat) (b : List Nat) :
    ((stepLoop s (.frame now sid b true)).packets_forwarded
        = s.packets_forwarded + (if sid = s.expected_sysid then 1 else 0)) ∧
    ((stepLoop s (.frame now sid b true)).packets_filtered
        = s.packets_filtered + (if sid = s.expected_sysid then 0 else 1)) ∧
    ((stepLoop s (.frame now sid b true)).sent
        = s.sent ++ (if sid = s.expected_sysid then [b] else [])) ∧
    ((stepLoop s (.frame now sid b true)).bytes_forwarded
        = s.bytes_forwarded + (if sid = s.expected_sysid then b.length else 0)) := by
  by_cases h : sid = s.expected_sysid <;>
    simp [stepLoop, loopBody, h, statsCheck_forwarded, statsCheck_filtered,
      statsCheck_sent, statsCheck_bytes]

theorem runLoop_frames (s : Fwd) (fs : List FrameIn) :
    ((runLoop s (frameEvents fs)).packets_forwarded
        = s.packets_forwarded
          + (fs.filter fun f => f.sysid == s.expected_sysid).length) ∧
    ((runLoop s (frameEvents fs)).packets_filtered
        = s.packets_filtered
          + (fs.filter fun f => f.sysid != s.expected_sysid).length) ∧
    ((runLoop s (frameEvents fs)).sent
        = s.sent
          ++ (fs.filter fun f => f.sysid == s.expected_sysid).map FrameIn.bytes) ∧
    ((runLoop s (frameEvents fs)).bytes_forwarded
        = s.bytes_forwarded
          + ((fs.filter fun f => f.sysid == s.expected_sysid).map
              fun f => f.bytes.length).sum) := by
  induction fs generalizing s with
  | nil => simp [runLoop, frameEvents]
  | cons f rest ih =>
      have hstep := stepLoop_frame_effect s f.time f.sysid f.bytes
      have hexp := stepLoop_expected s (.frame f.time f.sysid f.bytes true)
      have ihs := ih (stepLoop s (.frame f.time f.sysid f.bytes true))
      rw [hexp] at ihs
      simp only [frameEvents] at ihs
      refine ⟨?_, ?_, ?_, ?_⟩
      · rw [frameEvents, List.map_cons, runLoop, ihs.1, hstep.1,
          List.filter_cons]
        by_cases h : f.sysid = s.expected_sysid <;> simp [h] <;> omega
      · rw [frameEvents, List.map_cons, runLoop, ihs.2.1, hstep.2.1,
          List.filter_cons]
        by_cases h : f.sysid = s.expected_sysid <;> simp [h] <;> omega
      · rw [frameEvents, List.map_cons, runLoop, ihs.2.2.1, hstep.2.2.1,
          List.filter_cons]
        by_cases h : f.sysid = s.expected_sysid <;> simp [h]
      · rw [frameEvents, List.map_cons, runLoop, ihs.2.2.2, hstep.2.2.2,
          List.filter_cons]
        by_cases h : f.sysid = s.expected_sysid <;> simp [h] <;> omega

/-- C2: over any all-frames trace the loop forwards exactly the frames
whose source system id equals the expected one — raw bytes unmodified, in
original relative order — counts them in `packets_forwarded` and their
lengths in `bytes_forwarded`, and counts every non-matching frame in
`packets_filtered` while sending nothing for it; in particular the
100-frame scenario (60 matching, 40 not) ends with `packets_forwarded = 60`,
`packets_filtered = 40`, the destination seeing exactly the 60 matching
payloads in order, and `bytes_forwarded` their summed length. -/
theorem forwarding_filters_by_sysid :
    (∀ (s : Fwd) (fs : List FrameIn),
      ((runLoop s (frameEvents fs)).packets_forwarded
          = s.packets_forwarded
            + (fs.filter fun f => f.sysid == s.expected_sysid).length) ∧
      ((runLoop s (frameEvents fs)).packets_filtered
          = s.packets_filtered
            + (fs.filter fun f => f.sysid != s.expected_sysid).length) ∧
      ((runLoop s (frameEvents fs)).sent
          = s.sent
            ++ (fs.filter fun f => f.sysid == s.expected_sysid).map
                FrameIn.bytes) ∧
      ((runLoop s (frameEvents fs)).bytes_forwarded
          = s.bytes_forwarded
            + ((fs.filter fun f => f.sysid == s.expected_sysid).map
                fun f => f.bytes.length).sum)) ∧
    ((runLoop (initFwd 2) (frameEvents scenarioFrames)).packets_forwarded
        = 60) ∧
    ((runLoop (initFwd 2) (frameEvents scenarioFrames)).packets_filtered
        = 40) ∧
    ((runLoop (initFwd 2) (frameEvents scenarioFrames)).sent
        = (scenarioFrames.filter fun f => f.sysid == 2).map FrameIn.bytes) ∧
    ((runLoop (initFwd 2) (frameEvents scenarioFrames)).bytes_forwarded
        = ((scenarioFrames.filter fun f => f.sysid == 2).map
            fun f => f.bytes.length).sum) := by
  have hgen := runLoop_frames
  refine ⟨hgen, ?_, ?_, ?_, ?_⟩
  · rw [(hgen (initFwd 2) scenarioFrames).1]
    decide
  · rw [(hgen (initFwd 2) scenarioFrames).2.1]
    decide
  · rw [(hgen (initFwd 2) scenarioFrames).2.2.1]
    simp [initFwd]
  · rw [(hgen (initFwd 2) scenarioFrames).2.2.2]
    simp [initFwd]

/-- C7 counterexample: `start` after `stop` returns the instance to the
Running state and launches a second loop thread, so `Stopped` is not
terminal for the instance in the code (`start()` only checks `running`). -/
theorem stopped_not_terminal :
    (start 5 (stop (start 0 (initFwd 1)))).running = true ∧
    (start 5 (stop (start 0 (initFwd 1)))).threadsLaunched = 2 := by
  decide

/-- C7 amended: after `stop()` a further `start()` does return the
instance to Running, launching a new thread; but no operation resets the
counters in place — `start`, `stop` and every loop iteration leave the
four counters unchanged or larger, and they are zero only in a freshly
constructed forwarder. -/
theorem counters_reset_only_by_recreation (s : Fwd) (now : ℤ) (e : Event) :
    (s.running = false → (start now s).running = true) ∧
    countersOf (start now s) = countersOf s ∧
    countersOf (stop s) = countersOf s ∧
    (s.packets_received ≤ (stepLoop s e).packets_received ∧
      s.packets_forwarded ≤ (stepLoop s e).packets_forwarded ∧
      s.packets_filtered ≤ (stepLoop s e).packets_filtered ∧
      s.bytes_forwarded ≤ (stepLoop s e).bytes_forwarded) ∧
    (∀ k : Nat, countersOf (initFwd k) = (0, 0, 0, 0)) := by
  refine ⟨fun h => ?_, ?_, ?_, ?_, fun k => rfl⟩
  · simp [start, h]
  · unfold start countersOf
    split <;> rfl
  · rfl
  · cases e with
    | timeout =>
        simp only [stepLoop, loopBody]
        split_ifs <;> simp
    | recvError => simp [stepLoop, loopBody]
    | frame fnow sid b ok =>
        simp only [stepLoop, loopBody]
        split_ifs <;>
          simp [statsCheck_received, statsCheck_forwarded, statsCheck_filtered,
            statsCheck_bytes] <;>
          omega

/-- Witness for C7 amended: restarting a stopped forwarder that has
forwarded one frame keeps its counters. -/
theorem counters_reset_only_by_recreation_witness :
    (start 9 (stop (runLoop (start 0 (initFwd 1))
        [.frame 0 1 [7] true]))).running = true ∧
    countersOf (start 9 (stop (runLoop (start 0 (initFwd 1))
        [.frame 0 1 [7] true])))
      = countersOf (stop (runLoop (start 0 (initFwd 1))
          [.frame 0 1 [7] true])) :=
  ⟨(counters_reset_only_by_recreation
      (stop (runLoop (start 0 (initFwd 1)) [.frame 0 1 [7] true])) 9
      .timeout).1 (by decide),
   (counters_reset_only_by_recreation
      (stop (runLoop (start 0 (initFwd 1)) [.frame 0 1 [7] true])) 9
      .timeout).2.1⟩

/-- C8 counterexample: iterations that time out `continue` before the
periodic-stats check, so even when far more than 10 seconds have passed
since the last report (here 12 consecutive 1-second receive timeouts
starting from a report stamp at time 0) no statistics line is emitted;
an exception iteration emits none either. -/
theorem stats_skipped_on_timeout_iterations :
    (runLoop (loopInit 0 (start 0 (initFwd 1)))
        (List.replicate 12 .timeout)).statsLogged = 0 ∧
    (stepLoop (loopInit 0 (start 0 (initFwd 1))) .recvError).statsLogged
        = 0 := by
  decide

/-- C8 amended: the periodic statistics line is gated by the
last-reported-at timestamp, not a tick count, but only frame-processing
iterations reach the check: a frame iteration at wall time `now` emits
exactly one statistics line and re-stamps `last_stats_time` whenever at
least 10 seconds have passed since the last report (given a positive
elapsed runtime), emits nothing when fewer than 10 have passed, and
timeout or exception iterations never emit one. -/
theorem stats_line_gated_by_timestamp (s : Fwd) (now : ℤ) (sid : Nat)
    (b : List Nat) :
    (10 ≤ now - s.last_stats_time → 0 < elapsed now s →
      (stepLoop s (.frame now sid b true)).statsLogged = s.statsLogged + 1 ∧
      (stepLoop s (.frame now sid b true)).last_stats_time = now) ∧
    (now - s.last_stats_time < 10 →
      (stepLoop s (.frame now sid b true)).statsLogged = s.statsLogged ∧
      (stepLoop s (.frame now sid b true)).last_stats_time
          = s.last_stats_time) ∧
    (stepLoop s .timeout).statsLogged = s.statsLogged ∧
    (stepLoop s .recvError).statsLogged = s.statsLogged := by
  refine ⟨fun h10 hel => ?_, fun h10 => ?_, ?_, ?_⟩
  · cases hst : s.start_time with
    | none => simp [elapsed, hst] at hel
    | some t =>
        simp only [elapsed, hst] at hel
        by_cases h : sid = s.expected_sysid <;>
          simp [stepLoop, loopBody, statsCheck, logStats, elapsed, hst, h,
            h10, hel]
  · have hn : ¬ (10 ≤ now - s.last_stats_time) := not_le.mpr h10
    by_cases h : sid = s.expected_sysid <;>
      simp [stepLoop, loopBody, statsCheck, h, hn]
  · simp only [stepLoop, loopBody]
    split_ifs <;> rfl
  · rfl

/-- Witness for C8 amended: a frame arriving 12 seconds after the last
report on a forwarder started at time 0 produces exactly one statistics
line and re-stamps the report time. -/
theorem stats_line_gated_by_timestamp_witness :
    (stepLoop (loopInit 0 (start 0 (initFwd 1)))
        (.frame 12 3 [1] true)).statsLogged
      = (loopInit 0 (start 0 (initFwd 1))).statsLogged + 1 ∧
    (stepLoop (loopInit 0 (start 0 (initFwd 1)))
        (.frame 12 3 [1] true)).last_stats_time = 12 :=
  (stats_line_gated_by_timestamp (loopInit 0 (start 0 (initFwd 1))) 12 3
    [1]).1 (by decide) (by decide)

/-- C10: `start_all` starts every configured forwarder, in configuration
order, the i-th at time `now + i` (the fixed one-second stagger), and the
i-th outcome depends only on the i-th configuration entry — a connection
failure of an earlier forwarder is confined to its own dead thread and
does not prevent any later forwarder from being started; afterwards every
forwarder has `running = true`. -/
theorem start_all_staggered_fault_isolated (now : ℤ)
    (cfgs : List (Bool × Fwd)) :
    ((start_all now cfgs).length = cfgs.length) ∧
    (∀ (i : Nat) (hi : i < cfgs.length)
        (hj : i < (start_all now cfgs).length),
      (start_all now cfgs).get ⟨i, hj⟩
        = startOne (now + i) (cfgs.get ⟨i, hi⟩).1 (cfgs.get ⟨i, hi⟩).2) ∧
    (∀ sp ∈ start_all now cfgs, sp.fwd.running = true) := by
  induction cfgs generalizing now with
  | nil => exact ⟨rfl, fun i hi => by simp at hi, fun sp h => by simp [start_all] at h⟩
  | cons c rest ih =>
      obtain ⟨ok, f⟩ := c
      refine ⟨?_, ?_, ?_⟩
      · simp [start_all, (ih (now + 1)).1]
      · intro i hi hj
        cases i with
        | zero => simp [start_all]
        | succ n =>
            have hn : n < rest.length := by
              simpa using hi
            have hm : n < (start_all (now + 1) rest).length := by
              rw [(ih (now + 1)).1]
              exact hn
            have h2 := (ih (now + 1)).2.1 n hn hm
            simp only [start_all, List.get_cons_succ]
            rw [h2]
            congr 1
            push_cast
            ring
      · intro sp hsp
        rcases List.mem_cons.mp hsp with h | h
        · subst h
          simp [startOne, start]
          split <;> simp_all
        · exact (ih (now + 1)).2.2 sp h

/-- Witness for C10: with the first forwarder's connection failing and the
second succeeding, both end up started and running, the second one second
after the first. -/
theorem start_all_staggered_fault_isolated_witness :
    (start_all 0 [(false, initFwd 1), (true, initFwd 2)]).length = 2 ∧
    (start_all 0 [(false, initFwd 1), (true, initFwd 2)]).get ⟨1, by decide⟩
      = startOne (0 + 1) true (initFwd 2) ∧
    ∀ sp ∈ start_all 0 [(false, initFwd 1), (true, initFwd 2)],
      sp.fwd.running = true :=
  ⟨(start_all_staggered_fault_isolated 0
      [(false, initFwd 1), (true, initFwd 2)]).1,
   (start_all_staggered_fault_isolated 0
      [(false, initFwd 1), (true, initFwd 2)]).2.1 1 (by decide) (by decide),
   (start_all_staggered_fault_isolated 0
      [(false, initFwd 1), (true, initFwd 2)]).2.2⟩
